import Mathlib

/-
Verification of the natural-language specification of
`ironic_python_agent/ironic_api_client.py` against a shallow embedding of
that module.  The embedding translates the module's `APIClient` methods
(`heartbeat`, `lookup_node`, `_do_lookup` with its nested `next_interval`)
into executable Lean definitions.  Durations and timeouts are modelled as
natural numbers of seconds; the external HTTP transport is an oracle giving
the response of each attempt; the external JSON decoder is modelled by
carrying each response body as `Option Json` (`none` when `json.loads`
raises).
-/

namespace IronicAPIClient

/-- JSON values, as produced by the external `json.loads` collaborator.
`num` covers all JSON numbers (the claims only need their identity, not
their arithmetic). -/
inductive Json where
  | null : Json
  | bool : Bool → Json
  | num : Int → Json
  | str : String → Json
  | arr : List Json → Json
  | obj : List (String × Json) → Json

/-- Python equality test of a JSON value against a string: only a string
with the same characters compares equal. -/
def jsonIsStr (j : Json) (s : String) : Bool :=
  match j with
  | .str t => t == s
  | _ => false

/-- Substring test, modelling the Python expression `pat in s` on strings
(the patterns used by the module are all nonempty). -/
def strContains (s pat : String) : Bool :=
  (s.splitOn pat).length != 1

/-- Key lookup in a decoded JSON object, first binding wins (Python dicts
from `json.loads` keep the last duplicate, but the module never produces
duplicates; decoded dicts are modelled as association lists). -/
def dictHas (fields : List (String × Json)) (key : String) : Bool :=
  fields.any (fun p => p.1 == key)

/-- Value of a key in a decoded JSON object, if present. -/
def dictGet (fields : List (String × Json)) (key : String) : Option Json :=
  (fields.find? (fun p => p.1 == key)).map Prod.snd

/-- The Python membership test `key in j`.  On a dict it tests keys, on a
list it tests elements, on a string it tests substrings; on any other
value it raises `TypeError`, modelled as `.error`. -/
def pyContains (j : Json) (key : String) : Except String Bool :=
  match j with
  | .obj fields => .ok (dictHas fields key)
  | .arr xs => .ok (xs.any (fun x => jsonIsStr x key))
  | .str s => .ok (strContains s key)
  | _ => .error "TypeError: argument of type is not iterable"

/-- The Python subscript `j[key]` with a string key: succeeds only on a
dict holding the key; on a list or string it raises `TypeError`
(string indices must be integers), on other values `TypeError` as well. -/
def pySubscript (j : Json) (key : String) : Except String Json :=
  match j with
  | .obj fields =>
    match fields.find? (fun p => p.1 == key) with
    | some p => .ok p.2
    | none => .error "KeyError"
  | _ => .error "TypeError: indices must be integers"

/-- An HTTP response as delivered by the Transport collaborator
(`requests`): status code, response headers, and the decoded body.
`body = none` models a raw body on which `json.loads` raises. -/
structure Response where
  status_code : Nat
  headers : List (String × String)
  body : Option Json

/-- Result of one Transport call: either a raised transport exception
(`.error`, carrying `str(e)`) or a response. -/
inductive TransportResult where
  | error : String → TransportResult
  | ok : Response → TransportResult

/-- Case-sensitive header lookup (`response.headers[k]`), `none` when the
key is absent (Python raises `KeyError` there; the caller catches it). -/
def headerGet (headers : List (String × String)) (key : String) : Option String :=
  (headers.find? (fun p => p.1 == key)).map Prod.snd

/-- A decimal number `num / 10 ^ scale`, the result type of the modelled
`float()` builtin (e.g. the string `10.5` parses to `⟨105, 1⟩`). -/
structure Dec where
  num : Nat
  scale : Nat
  deriving DecidableEq, Repr

/-- Modelled from the spec: the external Python `float()` builtin
(not repository code), restricted to plain decimal strings — digits with
an optional fractional part — per the spec's "parsed as a floating-point
seconds value".  Any other string fails to parse (`none`). -/
def pyFloat (s : String) : Option Dec :=
  match s.toList.span Char.isDigit with
  | (ds, []) =>
    if ds.isEmpty then none else some ⟨ds.foldl (fun a c => a * 10 + (c.toNat - 48)) 0, 0⟩
  | (ds, c :: fs) =>
    if c == '.' && fs.all Char.isDigit && !(ds.isEmpty && fs.isEmpty) then
      some ⟨(ds ++ fs).foldl (fun a c => a * 10 + (c.toNat - 48)) 0, fs.length⟩
    else none

/-- Outcome of one `heartbeat` call: the parsed `Heartbeat-Before` value,
or a raised `HeartbeatError` carrying its message. -/
inductive HeartbeatResult where
  | ok : Dec → HeartbeatResult
  | heartbeatError : String → HeartbeatResult
  deriving DecidableEq, Repr

/-- `APIClient.heartbeat`: one POST (no retry).  A transport exception
becomes `HeartbeatError(str(e))`; a status other than 204 No Content
becomes `HeartbeatError('Invalid status code: ...')`; otherwise the
`Heartbeat-Before` header is parsed as a float, a missing header giving
the missing-header error and an unparseable one the invalid-header
error. -/
def heartbeat (tr : TransportResult) : HeartbeatResult :=
  match tr with
  | .error e => .heartbeatError e
  | .ok response =>
    if response.status_code ≠ 204 then
      .heartbeatError ("Invalid status code: " ++ toString response.status_code)
    else
      match headerGet response.headers "Heartbeat-Before" with
      | none => .heartbeatError "Missing Heartbeat-Before header"
      | some s =>
        match pyFloat s with
        | none => .heartbeatError "Invalid Heartbeat-Before header"
        | some v => .ok v

/-- `APIClient._get_agent_url`: formats the advertise address. -/
def get_agent_url (advertise_address : String × String) : String :=
  "http://" ++ advertise_address.1 ++ ":" ++ advertise_address.2

/-- The lookup request body built by `_do_lookup`. -/
def lookupRequestBody (hardware_info : Json) : Json :=
  .obj [("hardware", hardware_info)]

/-- The mutable backoff bookkeeping of `_do_lookup`, threaded through the
looping call: `intervals` is the ordered backoff history (seed first) and
`total_time` the cell `total_time[0]`. -/
structure RetryState where
  intervals : List Nat
  total_time : Nat
  deriving DecidableEq, Repr

/-- The state `lookup_node` seeds each looping call with:
`intervals=[starting_interval], total_time=[0]`. -/
def initialRetryState (starting_interval : Nat) : RetryState :=
  ⟨[starting_interval], 0⟩

/-- `next_interval` (nested in `_do_lookup`): doubles the last interval;
when the budget would be exceeded it raises `LoopingCallDone()` to kill
the looping call — modelled as `none` — and otherwise records the new
interval in both cells and returns it. -/
def next_interval (timeout : Nat) (st : RetryState) : Option (Nat × RetryState) :=
  let new_interval := st.intervals.getLastD 0 * 2
  if st.total_time + new_interval > timeout then
    none
  else
    some (new_interval, ⟨st.intervals ++ [new_interval], st.total_time + new_interval⟩)

/-- Result of one `_do_lookup` invocation: return a new interval to the
looping call (`retry`), raise `LoopingCallDone()` with no retvalue
(`timeout`), raise `LoopingCallDone(retvalue=content)` (`success`), or
let some other Python exception escape (`pyError`). -/
inductive DoLookupResult where
  | retry : Nat → RetryState → DoLookupResult
  | timeout : DoLookupResult
  | success : Json → DoLookupResult
  | pyError : String → DoLookupResult

/-- The shared failure path of `_do_lookup`: `return next_interval(...)`,
which either returns the new interval or raises `LoopingCallDone()`. -/
def continueStep (timeout : Nat) (st : RetryState) : DoLookupResult :=
  match next_interval timeout st with
  | none => .timeout
  | some (i, st') => .retry i st'

/-- `APIClient._do_lookup`, one invocation: POST failure, bad status or a
body on which `json.loads` raises are logged and turned into
`next_interval`; then `if 'node' not in content or 'uuid' not in
content['node']` and `if 'heartbeat_timeout' not in content` are
evaluated with Python membership/subscript semantics (whose `TypeError`s
are not caught); a fully valid body raises
`LoopingCallDone(retvalue=content)`. -/
def do_lookup (timeout : Nat) (st : RetryState) (tr : TransportResult) : DoLookupResult :=
  match tr with
  | .error _ => continueStep timeout st
  | .ok response =>
    if response.status_code ≠ 200 then continueStep timeout st
    else
      match response.body with
      | none => continueStep timeout st
      | some content =>
        match pyContains content "node" with
        | .error e => .pyError e
        | .ok false => continueStep timeout st
        | .ok true =>
          match pySubscript content "node" with
          | .error e => .pyError e
          | .ok node =>
            match pyContains node "uuid" with
            | .error e => .pyError e
            | .ok false => continueStep timeout st
            | .ok true =>
              match pyContains content "heartbeat_timeout" with
              | .error e => .pyError e
              | .ok false => continueStep timeout st
              | .ok true => .success content

/-- Terminal outcome of the looping call: `LoopingCallDone(retvalue=c)`
(`value`), `LoopingCallDone()` whose default retvalue is `True`
(`timeoutSentinel`), an escaped Python exception (`uncaught`), or fuel
exhaustion — a model artifact standing for nontermination. -/
inductive LoopOutcome where
  | value : Json → LoopOutcome
  | timeoutSentinel : LoopOutcome
  | uncaught : String → LoopOutcome
  | fuelOut : LoopOutcome

/-- One finished looping-call run: its outcome, the number of work-unit
(Transport) invocations, and the `RetryState` at each invocation. -/
structure LoopRun where
  outcome : LoopOutcome
  calls : Nat
  states : List RetryState

/-- Modelled from the spec: the `DynamicLoopingCall` scheduler driver
(repository module `ironic_python_agent/openstack/common/loopingcall`,
not under `src/`).  Per spec §4.2 it invokes the work unit immediately,
and a returned interval means sleep for it and invoke again, while a
raised `LoopingCallDone` stops the loop with its retvalue.  `transport`
gives each attempt's Transport result; `fuel` bounds the number of
invocations so the model is total (the source loop need not terminate,
e.g. with `starting_interval = 0`). -/
def runLookup (timeout : Nat) (transport : Nat → TransportResult) :
    Nat → Nat → RetryState → LoopRun
  | 0, _, _ => ⟨.fuelOut, 0, []⟩
  | fuel + 1, attempt, st =>
    match do_lookup timeout st (transport attempt) with
    | .success c => ⟨.value c, 1, [st]⟩
    | .timeout => ⟨.timeoutSentinel, 1, [st]⟩
    | .pyError e => ⟨.uncaught e, 1, [st]⟩
    | .retry _ st' =>
      let r := runLookup timeout transport fuel (attempt + 1) st'
      ⟨r.outcome, r.calls + 1, st :: r.states⟩

/-- Result of `lookup_node`: the node content, a raised
`LookupNodeError`, an escaped Python exception, or the fuel artifact. -/
inductive LookupNodeResult where
  | ok : Json → LookupNodeResult
  | lookupNodeError : LookupNodeResult
  | uncaught : String → LookupNodeResult
  | fuelOut : LookupNodeResult

/-- `APIClient.lookup_node`: drives `_do_lookup` through the looping call
seeded with `intervals=[starting_interval], total_time=[0]`; the
`True` retvalue of the bare `LoopingCallDone()` (the timeout signal) is
translated into `LookupNodeError`, any other retvalue is returned
unchanged. -/
def lookup_node (timeout starting_interval : Nat) (transport : Nat → TransportResult)
    (fuel : Nat) : LookupNodeResult :=
  match (runLookup timeout transport fuel 0 (initialRetryState starting_interval)).outcome with
  | .value c => .ok c
  | .timeoutSentinel => .lookupNodeError
  | .uncaught e => .uncaught e
  | .fuelOut => .fuelOut

/-! ### Helper lemmas -/

/-- A successful `next_interval` step returns the doubled last interval,
appends it, adds it to the counter, and only fires within the budget. -/
theorem next_interval_some {timeout : Nat} {st : RetryState} {i : Nat} {st' : RetryState}
    (h : next_interval timeout st = some (i, st')) :
    i = st.intervals.getLastD 0 * 2 ∧
    st' = ⟨st.intervals ++ [i], st.total_time + i⟩ ∧
    st.total_time + i ≤ timeout := by
  unfold next_interval at h
  dsimp only at h
  split at h
  · exact absurd h (by simp)
  · next hle =>
    simp only [Option.some.injEq, Prod.mk.injEq] at h
    obtain ⟨h1, h2⟩ := h
    subst h1
    exact ⟨rfl, h2.symm, Nat.le_of_not_lt hle⟩

/-- `next_interval` kills the looping call exactly when the doubled last
interval would push the counter strictly past the timeout. -/
theorem next_interval_none_iff (timeout : Nat) (st : RetryState) :
    next_interval timeout st = none ↔
      timeout < st.total_time + st.intervals.getLastD 0 * 2 := by
  unfold next_interval
  dsimp only
  split
  · next hgt => exact iff_of_true rfl hgt
  · next hle => exact iff_of_false (by simp) hle

/-- A `retry` outcome of the failure path comes from a successful
`next_interval` step. -/
theorem continueStep_retry {timeout : Nat} {st : RetryState} {i : Nat} {st' : RetryState}
    (h : continueStep timeout st = .retry i st') :
    next_interval timeout st = some (i, st') := by
  unfold continueStep at h
  rcases hn : next_interval timeout st with _ | ⟨j, st₂⟩
  · rw [hn] at h
    exact absurd h (by simp)
  · rw [hn] at h
    simp only [DoLookupResult.retry.injEq] at h
    rw [h.1, h.2]

/-- The failure path never reports success. -/
theorem continueStep_ne_success (timeout : Nat) (st : RetryState) (c : Json) :
    continueStep timeout st ≠ .success c := by
  unfold continueStep
  rcases next_interval timeout st with _ | ⟨j, st₂⟩ <;> simp

/-- The failure path never lets a Python error escape. -/
theorem continueStep_ne_pyError (timeout : Nat) (st : RetryState) (e : String) :
    continueStep timeout st ≠ .pyError e := by
  unfold continueStep
  rcases next_interval timeout st with _ | ⟨j, st₂⟩ <;> simp

/-- Every `_do_lookup` invocation either takes the failure path, succeeds
with some content, or lets some Python error escape. -/
theorem do_lookup_cases (timeout : Nat) (st : RetryState) (tr : TransportResult) :
    do_lookup timeout st tr = continueStep timeout st ∨
    (∃ c, do_lookup timeout st tr = .success c) ∨
    (∃ e, do_lookup timeout st tr = .pyError e) := by
  unfold do_lookup
  cases tr with
  | error e => exact Or.inl rfl
  | ok response =>
    repeat' split
    all_goals first
      | exact Or.inl rfl
      | exact Or.inr (Or.inl ⟨_, rfl⟩)
      | exact Or.inr (Or.inr ⟨_, rfl⟩)

/-- A `retry` outcome of `_do_lookup` comes from a successful
`next_interval` step on the current state. -/
theorem do_lookup_retry {timeout : Nat} {st : RetryState} {tr : TransportResult}
    {i : Nat} {st' : RetryState}
    (h : do_lookup timeout st tr = .retry i st') :
    next_interval timeout st = some (i, st') := by
  rcases do_lookup_cases timeout st tr with hc | ⟨c, hc⟩ | ⟨e, hc⟩ <;> rw [hc] at h
  · exact continueStep_retry h
  · exact absurd h (by simp)
  · exact absurd h (by simp)

/-- A `success` outcome of `_do_lookup` requires a 200 response whose
decoded body passes every validity check. -/
theorem do_lookup_success {timeout : Nat} {st : RetryState} {tr : TransportResult}
    {c : Json} (h : do_lookup timeout st tr = .success c) :
    ∃ response, tr = .ok response ∧ response.status_code = 200 ∧
      response.body = some c ∧
      pyContains c "node" = .ok true ∧
      (∃ node, pySubscript c "node" = .ok node ∧ pyContains node "uuid" = .ok true) ∧
      pyContains c "heartbeat_timeout" = .ok true := by
  unfold do_lookup at h
  cases tr with
  | error e => exact absurd h (continueStep_ne_success _ _ _)
  | ok response =>
    dsimp only at h
    by_cases hstatus : response.status_code = 200
    · rw [if_neg (not_not_intro hstatus)] at h
      rcases hbody : response.body with _ | content
      · rw [hbody] at h
        exact absurd h (continueStep_ne_success _ _ _)
      · rw [hbody] at h
        try dsimp only at h
        rcases hnode : pyContains content "node" with e | b
        · rw [hnode] at h
          exact absurd h (by simp)
        · rw [hnode] at h
          try dsimp only at h
          cases b with
          | false => exact absurd h (continueStep_ne_success _ _ _)
          | true =>
            rcases hsub : pySubscript content "node" with e | node
            · rw [hsub] at h
              exact absurd h (by simp)
            · rw [hsub] at h
              try dsimp only at h
              rcases huuid : pyContains node "uuid" with e | b2
              · rw [huuid] at h
                exact absurd h (by simp)
              · rw [huuid] at h
                try dsimp only at h
                cases b2 with
                | false => exact absurd h (continueStep_ne_success _ _ _)
                | true =>
                  rcases hhb : pyContains content "heartbeat_timeout" with e | b3
                  · rw [hhb] at h
                    exact absurd h (by simp)
                  · rw [hhb] at h
                    try dsimp only at h
                    cases b3 with
                    | false => exact absurd h (continueStep_ne_success _ _ _)
                    | true =>
                      simp only [DoLookupResult.success.injEq] at h
                      subst h
                      exact ⟨response, rfl, hstatus, hbody, hnode,
                        ⟨node, hsub, huuid⟩, hhb⟩
    · rw [if_pos hstatus] at h
      exact absurd h (continueStep_ne_success _ _ _)

/-- Any property of the retry state preserved by successful
`next_interval` steps holds at every state at which the looping call
invokes the work unit, provided it holds at the starting state. -/
theorem runLookup_states_inv (timeout : Nat) (transport : Nat → TransportResult)
    (P : RetryState → Prop)
    (hP : ∀ st i st', next_interval timeout st = some (i, st') → P st → P st') :
    ∀ fuel attempt st, P st →
      ∀ q ∈ (runLookup timeout transport fuel attempt st).states, P q := by
  intro fuel
  induction fuel with
  | zero =>
    intro attempt st hst q hq
    simp [runLookup] at hq
  | succ n ih =>
    intro attempt st hst q hq
    rw [runLookup] at hq
    rcases hd : do_lookup timeout st (transport attempt) with ⟨i, st'⟩ | _ | c | e
    all_goals rw [hd] at hq
    all_goals try dsimp only at hq
    · rcases List.mem_cons.mp hq with rfl | hq'
      · exact hst
      · exact ih (attempt + 1) st' (hP st i st' (do_lookup_retry hd) hst) q hq'
    all_goals
      rcases List.mem_singleton.mp hq with rfl
    all_goals exact hst

/-- A key found by `pySubscript` on a decoded object is its `dictGet`
value. -/
theorem dictGet_of_pySubscript {fields : List (String × Json)} {key : String}
    {v : Json} (h : pySubscript (.obj fields) key = .ok v) :
    dictGet fields key = some v := by
  unfold pySubscript at h
  dsimp only at h
  unfold dictGet
  rcases hf : fields.find? (fun p => p.1 == key) with _ | p
  · rw [hf] at h
    exact absurd h (by simp)
  · rw [hf] at h
    dsimp only at h
    simp only [Except.ok.injEq] at h
    rw [hf]
    dsimp only [Option.map_some']
    rw [h]

/-- A present key makes the membership test positive. -/
theorem dictHas_of_dictGet {fields : List (String × Json)} {key : String}
    {v : Json} (h : dictGet fields key = some v) :
    dictHas fields key = true := by
  unfold dictGet at h
  rcases hf : fields.find? (fun p => p.1 == key) with _ | p
  · rw [hf] at h
    exact absurd h (by simp)
  · have hm := List.mem_of_find?_eq_some hf
    have hp := List.find?_some hf
    exact List.any_eq_true.mpr ⟨p, hm, hp⟩

/-- A positive membership test exhibits a value for the key. -/
theorem dictGet_of_dictHas {fields : List (String × Json)} {key : String}
    (h : dictHas fields key = true) :
    ∃ v, dictGet fields key = some v := by
  obtain ⟨p, hm, hp⟩ := List.any_eq_true.mp h
  unfold dictGet
  rcases hf : fields.find? (fun q => q.1 == key) with _ | q
  · rw [List.find?_eq_none] at hf
    exact absurd hp (hf p hm)
  · refine ⟨q.2, ?_⟩
    rw [hf]
    rfl

/-- `dictGet` backs `pySubscript` on decoded objects. -/
theorem pySubscript_of_dictGet {fields : List (String × Json)} {key : String}
    {v : Json} (h : dictGet fields key = some v) :
    pySubscript (.obj fields) key = .ok v := by
  unfold dictGet at h
  unfold pySubscript
  dsimp only
  rcases hf : fields.find? (fun p => p.1 == key) with _ | p
  · rw [hf] at h
    exact absurd h (by simp)
  · rw [hf] at h
    simp only [Option.map_some', Option.some.injEq] at h
    rw [hf]
    dsimp only
    rw [h]

/-- Whether a `_do_lookup` outcome is an escaped Python exception. -/
def DoLookupResult.escapes : DoLookupResult → Bool
  | .pyError _ => true
  | _ => false

/-- Whether a `_do_lookup` outcome is the success signal. -/
def DoLookupResult.isSuccess : DoLookupResult → Bool
  | .success _ => true
  | _ => false

/-- The failure path never escapes and never succeeds. -/
theorem continueStep_flags (timeout : Nat) (st : RetryState) :
    (continueStep timeout st).escapes = false ∧
    (continueStep timeout st).isSuccess = false := by
  unfold continueStep
  rcases next_interval timeout st with _ | ⟨i, st'⟩ <;> exact ⟨rfl, rfl⟩

/-- An outcome that is no success at any content has `isSuccess = false`. -/
theorem isSuccess_false_of_ne {r : DoLookupResult} (h : ∀ c, r ≠ .success c) :
    r.isSuccess = false := by
  cases r with
  | success c => exact absurd rfl (h c)
  | retry i st => rfl
  | timeout => rfl
  | pyError e => rfl

/-- Core shape analysis of one `_do_lookup` step on a 200-or-not response
whose body decodes to a JSON object with a well-shaped `node` member:
the step never lets an error escape, and any non-success outcome is
exactly the `Continue` path. -/
theorem do_lookup_obj_no_escape (timeout : Nat) (st : RetryState) (status : Nat)
    (headers : List (String × String)) (fields : List (String × Json))
    (hnode : ∀ v, dictGet fields "node" = some v → ∃ gfields, v = .obj gfields) :
    (do_lookup timeout st (.ok ⟨status, headers, some (.obj fields)⟩)).escapes = false ∧
    ((do_lookup timeout st (.ok ⟨status, headers, some (.obj fields)⟩)).isSuccess = false →
      do_lookup timeout st (.ok ⟨status, headers, some (.obj fields)⟩) =
        continueStep timeout st) := by
  unfold do_lookup
  dsimp only
  by_cases hstatus : status = 200
  · rw [if_neg (not_not_intro hstatus)]
    dsimp only [pyContains]
    rcases hhas : dictHas fields "node" with _ | _
    · exact ⟨(continueStep_flags timeout st).1, fun _ => rfl⟩
    · obtain ⟨v, hget⟩ := dictGet_of_dictHas hhas
      obtain ⟨gfields, rfl⟩ := hnode v hget
      rw [pySubscript_of_dictGet hget]
      dsimp only [pyContains]
      rcases dictHas gfields "uuid" with _ | _
      · exact ⟨(continueStep_flags timeout st).1, fun _ => rfl⟩
      · rcases dictHas fields "heartbeat_timeout" with _ | _
        · exact ⟨(continueStep_flags timeout st).1, fun _ => rfl⟩
        · exact ⟨rfl, fun hfalse => absurd hfalse (by simp [DoLookupResult.isSuccess])⟩
  · rw [if_pos hstatus]
    exact ⟨(continueStep_flags timeout st).1, fun _ => rfl⟩

/-! ### Concrete transports used by witnesses and counterexamples -/

/-- Transport that always answers HTTP 500 (spec scenario B). -/
def transport500 : Nat → TransportResult := fun _ => .ok ⟨500, [], none⟩

/-- Transport that always raises a connection error. -/
def transportDown : Nat → TransportResult := fun _ => .error "connection refused"

/-- A fully valid lookup response body. -/
def goodBody : Json :=
  .obj [("node", .obj [("uuid", .str "abc")]), ("heartbeat_timeout", .num 300)]

/-- Transport that always answers HTTP 200 with a valid body. -/
def transportGood : Nat → TransportResult := fun _ => .ok ⟨200, [], some goodBody⟩

/-! ### Claims -/

/-- Claim C1: the retry scheduler never invokes the work unit an (N+1)th
time when doing so would make the cumulative counted time exceed
`timeout`: every state at which the work unit is invoked has
`total_time ≤ timeout` whenever the run starts within budget; the check
`total_time + new_interval > timeout` is exactly what makes
`next_interval` terminate the loop with the no-value outcome, evaluated
before sleeping/retrying; and `lookup_node` translates the no-value
outcome into a `LookupNodeError`. -/
theorem C1_timeout_respected (timeout : Nat) (transport : Nat → TransportResult)
    (fuel attempt : Nat) (st : RetryState) (h : st.total_time ≤ timeout) :
    (∀ q ∈ (runLookup timeout transport fuel attempt st).states, q.total_time ≤ timeout) ∧
    (∀ st₁ : RetryState, next_interval timeout st₁ = none ↔
      timeout < st₁.total_time + st₁.intervals.getLastD 0 * 2) ∧
    (∀ s ft, (runLookup timeout transport ft 0 (initialRetryState s)).outcome =
        LoopOutcome.timeoutSentinel →
      lookup_node timeout s transport ft = .lookupNodeError) := by
  refine ⟨?_, next_interval_none_iff timeout, ?_⟩
  · refine runLookup_states_inv timeout transport _ ?_ fuel attempt st h
    intro st₀ i st₁ hn _
    obtain ⟨-, h2, h3⟩ := next_interval_some hn
    subst h2
    exact h3
  · intro s ft hout
    unfold lookup_node
    rw [hout]

/-- Claim C1, instantiated: with a transport that always fails,
`timeout = 3` and `starting_interval = 1`, both invocation states respect
the budget and the run ends in `LookupNodeError`. -/
theorem C1_timeout_respected_witness :
    (initialRetryState 1).total_time ≤ 3 ∧
    RetryState.total_time ⟨[1, 2], 2⟩ ≤ 3 ∧
    lookup_node 3 1 transportDown 10 = .lookupNodeError :=
  ⟨by decide,
   (C1_timeout_respected 3 transportDown 10 0 (initialRetryState 1) (by decide)).1
     ⟨[1, 2], 2⟩ (by decide),
   (C1_timeout_respected 3 transportDown 10 0 (initialRetryState 1) (by decide)).2.2
     1 10 rfl⟩

/-- Claim C2 counterexample: in scenario B (always HTTP 500,
`starting_interval = 1`, `timeout = 3`) the counted cumulative time held
in `total_time` is `0` at the first work-unit invocation and `2` at the
second — never `1` nor `3` as the claim narrates — and the third attempt
is ruled out because `2 + 4 = 6` exceeds `3`, not because a cumulative
`7` does. -/
theorem C2_counterexample :
    (runLookup 3 transport500 10 0 (initialRetryState 1)).states.map
        RetryState.total_time = [0, 2] ∧
    (runLookup 3 transport500 10 0 (initialRetryState 1)).states.map
        RetryState.total_time ≠ [1, 3] ∧
    next_interval 3 ⟨[1, 2], 2⟩ = none ∧
    RetryState.total_time ⟨[1, 2], 2⟩ +
      (RetryState.intervals ⟨[1, 2], 2⟩).getLastD 0 * 2 = 6 :=
  ⟨rfl, by decide, rfl, rfl⟩

/-- Claim C2 (amended): scenario B performs exactly two Transport calls —
the first immediately with counted time `0`, the second after the single
backoff sleep of `2` with counted time `2`; the next would-be interval
`4` would raise the counted time to `6 > 3`, so the scheduler stops with
the no-value outcome and `lookup_node` raises the timeout error. -/
theorem C2_scenario_B :
    lookup_node 3 1 transport500 10 = .lookupNodeError ∧
    (runLookup 3 transport500 10 0 (initialRetryState 1)).calls = 2 ∧
    (runLookup 3 transport500 10 0 (initialRetryState 1)).states.map
        RetryState.intervals = [[1], [1, 2]] ∧
    (runLookup 3 transport500 10 0 (initialRetryState 1)).states.map
        RetryState.total_time = [0, 2] ∧
    next_interval 3 ⟨[1, 2], 2⟩ = none :=
  ⟨rfl, rfl, rfl, rfl, rfl⟩

/-- Claim C5: once the work unit signals success with a value, the run
ends at that very invocation — exactly one further Transport call, no
retry — and `lookup_node` returns exactly that value. -/
theorem C5_success_short_circuits (timeout fuel attempt : Nat)
    (transport : Nat → TransportResult) (st : RetryState) (c : Json)
    (h : do_lookup timeout st (transport attempt) = .success c) :
    runLookup timeout transport (fuel + 1) attempt st = ⟨.value c, 1, [st]⟩ ∧
    (∀ s ft, (runLookup timeout transport ft 0 (initialRetryState s)).outcome = .value c →
      lookup_node timeout s transport ft = .ok c) := by
  constructor
  · rw [runLookup, h]
  · intro s ft hout
    unfold lookup_node
    rw [hout]

/-- Claim C5, instantiated: a first-attempt valid 200 response makes the
run stop after one Transport call and `lookup_node` return the body. -/
theorem C5_success_short_circuits_witness :
    runLookup 300 transportGood 1 0 (initialRetryState 5) =
      ⟨.value goodBody, 1, [initialRetryState 5]⟩ ∧
    lookup_node 300 5 transportGood 1 = .ok goodBody :=
  ⟨(C5_success_short_circuits 300 0 0 transportGood (initialRetryState 5) goodBody rfl).1,
   (C5_success_short_circuits 300 0 0 transportGood (initialRetryState 5) goodBody rfl).2
     5 1 rfl⟩

/-- Two successive `lookup_node` calls: the source rebuilds
`intervals=[starting_interval]` and `total_time=[0]` inside each call
(passed explicitly to the looping call, never through the mutable
defaults), so each run starts from `initialRetryState`. -/
def lookup_node_twice (timeout starting_interval : Nat)
    (t1 t2 : Nat → TransportResult) (fuel : Nat) :
    LookupNodeResult × LookupNodeResult :=
  (lookup_node timeout starting_interval t1 fuel,
   lookup_node timeout starting_interval t2 fuel)

/-- Claim C8: the retry state is seeded afresh (`[starting_interval]`,
counter `0`) on every `lookup_node` call and shared with nothing: the
second of two successive calls equals a standalone call with the same
inputs, whatever the first call's transport did. -/
theorem C8_retry_state_fresh (timeout s : Nat)
    (t1 t1' t2 : Nat → TransportResult) (fuel : Nat) :
    initialRetryState s = ⟨[s], 0⟩ ∧
    (lookup_node_twice timeout s t1 t2 fuel).2 = lookup_node timeout s t2 fuel ∧
    (lookup_node_twice timeout s t1 t2 fuel).2 =
      (lookup_node_twice timeout s t1' t2 fuel).2 :=
  ⟨rfl, rfl, rfl⟩

/-- Transport result whose 200-status body decodes to the JSON number
`5`: `json.loads` succeeds and `'node' not in content` then raises
`TypeError`. -/
def numberBodyResult : TransportResult := .ok ⟨200, [], some (.num 5)⟩

/-- Claim C3 counterexample: on a 200 response whose body decodes to the
JSON number `5`, the failure is not converted into the `Continue`
decision — the uncaught `TypeError` escapes the loop body. -/
theorem C3_counterexample :
    do_lookup 3 (initialRetryState 1) numberBodyResult =
      .pyError "TypeError: argument of type is not iterable" ∧
    do_lookup 3 (initialRetryState 1) numberBodyResult ≠
      continueStep 3 (initialRetryState 1) := by
  refine ⟨rfl, ?_⟩
  intro hc
  have hcp : continueStep 3 (initialRetryState 1) =
      .pyError "TypeError: argument of type is not iterable" := by
    rw [← hc]
    exact rfl
  exact continueStep_ne_pyError _ _ _ hcp

/-- Claim C3 (amended): a failure inside the lookup retry step is
captured and converted into the `Continue` decision — no error escapes —
for every Transport result whose decoded body (when one is reached) is a
JSON object whose `node` member, if any, is itself a JSON object; with a
body decoding to another shape the step can instead raise an uncaught
`TypeError` (see the counterexample). -/
theorem C3_failures_continue (timeout : Nat) (st : RetryState) (tr : TransportResult)
    (hbody : ∀ response, tr = .ok response → ∀ j, response.body = some j →
      ∃ fields, j = Json.obj fields ∧
        ∀ v, dictGet fields "node" = some v → ∃ gfields, v = .obj gfields) :
    (do_lookup timeout st tr).escapes = false ∧
    ((do_lookup timeout st tr).isSuccess = false →
      do_lookup timeout st tr = continueStep timeout st) := by
  cases tr with
  | error e =>
    exact ⟨(continueStep_flags timeout st).1, fun _ => rfl⟩
  | ok response =>
    obtain ⟨status, headers, body⟩ := response
    rcases body with _ | j
    · unfold do_lookup
      dsimp only
      by_cases hstatus : status = 200
      · rw [if_neg (not_not_intro hstatus)]
        exact ⟨(continueStep_flags timeout st).1, fun _ => rfl⟩
      · rw [if_pos hstatus]
        exact ⟨(continueStep_flags timeout st).1, fun _ => rfl⟩
    · obtain ⟨fields, rfl, hnode⟩ := hbody ⟨status, headers, some j⟩ rfl j rfl
      exact do_lookup_obj_no_escape timeout st status headers fields hnode

/-- Claim C3 (amended), instantiated at an HTTP 500 response: the step
escapes nothing and is exactly the `Continue` decision. -/
theorem C3_failures_continue_witness :
    (do_lookup 3 (initialRetryState 1) (transport500 0)).escapes = false ∧
    do_lookup 3 (initialRetryState 1) (transport500 0) =
      continueStep 3 (initialRetryState 1) := by
  have hb : ∀ response, transport500 0 = .ok response → ∀ j, response.body = some j →
      ∃ fields, j = Json.obj fields ∧
        ∀ v, dictGet fields "node" = some v → ∃ gfields, v = .obj gfields := by
    intro response hr j hj
    have hr' : TransportResult.ok ⟨500, [], none⟩ = .ok response := hr
    injection hr' with h
    subst h
    exact Option.noConfusion hj
  exact ⟨(C3_failures_continue 3 (initialRetryState 1) (transport500 0) hb).1,
    (C3_failures_continue 3 (initialRetryState 1) (transport500 0) hb).2 rfl⟩

/-- `pyContains` on a decoded object is the dict membership test. -/
theorem pyContains_obj (fields : List (String × Json)) (key : String) :
    pyContains (.obj fields) key = .ok (dictHas fields key) := rfl

/-- Transport result whose 200-status body decodes to `{"node": 5}`: it
lacks `node.uuid` and lacks `heartbeat_timeout`. -/
def nodeNumBodyResult : TransportResult :=
  .ok ⟨200, [], some (.obj [("node", .num 5)])⟩

/-- Claim C6 counterexample: the body `{"node": 5}` lacks a `node.uuid`
and lacks `heartbeat_timeout`, yet the work unit does not signal
`Continue`: `'uuid' not in content['node']` raises an uncaught
`TypeError` (the body still never counts as success). -/
theorem C6_counterexample :
    dictHas [("node", Json.num 5)] "heartbeat_timeout" = false ∧
    do_lookup 3 (initialRetryState 1) nodeNumBodyResult =
      .pyError "TypeError: argument of type is not iterable" ∧
    do_lookup 3 (initialRetryState 1) nodeNumBodyResult ≠
      continueStep 3 (initialRetryState 1) := by
  refine ⟨rfl, rfl, ?_⟩
  intro hc
  have hcp : continueStep 3 (initialRetryState 1) =
      .pyError "TypeError: argument of type is not iterable" := by
    rw [← hc]
    exact rfl
  exact continueStep_ne_pyError _ _ _ hcp

/-- Claim C6 (amended): a decoded object body lacking `node.uuid` (no
`node` key, or an object `node` without `uuid`) or lacking a top-level
`heartbeat_timeout` never counts as lookup success, regardless of the
HTTP status code; and it signals `Continue` provided its `node` member,
when present, is itself a JSON object — with a non-object `node` member
the step can instead raise an uncaught `TypeError` (see the
counterexample), still never success. -/
theorem C6_validation (timeout : Nat) (st : RetryState) (status : Nat)
    (headers : List (String × String)) (fields : List (String × Json))
    (h : dictHas fields "node" = false ∨
         (∃ gfields, dictGet fields "node" = some (.obj gfields) ∧
            dictHas gfields "uuid" = false) ∨
         dictHas fields "heartbeat_timeout" = false) :
    (∀ c, do_lookup timeout st (.ok ⟨status, headers, some (.obj fields)⟩) ≠
      .success c) ∧
    ((∀ v, dictGet fields "node" = some v → ∃ gfields, v = .obj gfields) →
      do_lookup timeout st (.ok ⟨status, headers, some (.obj fields)⟩) =
        continueStep timeout st) := by
  have hns : ∀ c, do_lookup timeout st (.ok ⟨status, headers, some (.obj fields)⟩) ≠
      .success c := by
    intro c hc
    obtain ⟨resp, hresp, hstat, hbody, hnode, ⟨node, hsub, huuid⟩, hhb⟩ :=
      do_lookup_success hc
    injection hresp with hr
    subst hr
    have hb2 : some (Json.obj fields) = some c := hbody
    injection hb2 with hb3
    subst hb3
    rw [pyContains_obj] at hnode hhb
    simp only [Except.ok.injEq] at hnode hhb
    rcases h with h1 | ⟨gfields, hget, hgf⟩ | h3
    · rw [h1] at hnode
      exact Bool.noConfusion hnode
    · have hget2 := dictGet_of_pySubscript hsub
      rw [hget] at hget2
      injection hget2 with hg
      subst hg
      rw [pyContains_obj] at huuid
      simp only [Except.ok.injEq] at huuid
      rw [hgf] at huuid
      exact Bool.noConfusion huuid
    · rw [h3] at hhb
      exact Bool.noConfusion hhb
  exact ⟨hns, fun hshape =>
    (do_lookup_obj_no_escape timeout st status headers fields hshape).2
      (isSuccess_false_of_ne hns)⟩

/-- Claim C6 (amended), instantiated at the body
`{"heartbeat_timeout": 300}` (no `node`): not a success and exactly the
`Continue` decision, even with status 200. -/
theorem C6_validation_witness :
    do_lookup 7 (initialRetryState 1)
        (.ok ⟨200, [], some (.obj [("heartbeat_timeout", Json.num 300)])⟩) ≠
      .success (.obj [("heartbeat_timeout", Json.num 300)]) ∧
    do_lookup 7 (initialRetryState 1)
        (.ok ⟨200, [], some (.obj [("heartbeat_timeout", Json.num 300)])⟩) =
      continueStep 7 (initialRetryState 1) := by
  have hshape : ∀ v, dictGet [("heartbeat_timeout", Json.num 300)] "node" = some v →
      ∃ gfields, v = Json.obj gfields := by
    intro v hv
    have hv' : (none : Option Json) = some v := hv
    exact Option.noConfusion hv'
  exact ⟨(C6_validation 7 (initialRetryState 1) 200 []
      [("heartbeat_timeout", Json.num 300)] (Or.inl rfl)).1 _,
    (C6_validation 7 (initialRetryState 1) 200 []
      [("heartbeat_timeout", Json.num 300)] (Or.inl rfl)).2 hshape⟩

/-- The pure backoff chain: the retry state after `k` successful
`next_interval` steps from the freshly seeded state. -/
def backoffIter (timeout s : Nat) : Nat → Option RetryState
  | 0 => some (initialRetryState s)
  | k + 1 => (backoffIter timeout s k).bind fun st => (next_interval timeout st).map Prod.snd

/-- Along the backoff chain the interval history is exactly
`s·2^0, …, s·2^N`. -/
theorem backoffIter_intervals (timeout s : Nat) :
    ∀ N st, backoffIter timeout s N = some st →
      st.intervals = (List.range (N + 1)).map (fun i => s * 2 ^ i) := by
  intro N
  induction N with
  | zero =>
    intro st h
    have h' : some (initialRetryState s) = some st := h
    injection h' with h2
    subst h2
    simp [initialRetryState, show List.range 1 = [0] from rfl]
  | succ k ih =>
    intro st h
    rw [backoffIter] at h
    rcases hk : backoffIter timeout s k with _ | st₀
    · rw [hk] at h
      exact Option.noConfusion h
    · rw [hk] at h
      simp only [Option.some_bind'] at h
      rcases hn : next_interval timeout st₀ with _ | ⟨i, st₁⟩
      · rw [hn] at h
        exact Option.noConfusion h
      · rw [hn] at h
        have h' : some st₁ = some st := h
        injection h' with h2
        subst h2
        obtain ⟨hi, hst, -⟩ := next_interval_some hn
        have hprev := ih st₀ hk
        have hlast : st₀.intervals.getLastD 0 = s * 2 ^ k := by
          rw [hprev, List.range_succ, List.map_append]
          exact List.getLastD_concat _ _ _
        have hr : (List.range (k + 1 + 1)).map (fun i => s * 2 ^ i) =
            (List.range (k + 1)).map (fun i => s * 2 ^ i) ++ [s * 2 ^ (k + 1)] := by
          rw [List.range_succ, List.map_append]
          exact rfl
        subst hst
        dsimp only
        rw [hprev, hi, hlast, hr]
        congr 1
        simp [pow_succ, Nat.mul_assoc]

/-- Claim C4: after N successful backoff steps from seed s the recorded
history is exactly `s·2^0, …, s·2^N` (so the Nth retry interval is
`s·2^N`); for positive s the history is strictly increasing; and every
scheduler step leaves the cumulative counter no smaller. -/
theorem C4_backoff_doubling (timeout s N : Nat) (st : RetryState)
    (h : backoffIter timeout s N = some st) :
    st.intervals = (List.range (N + 1)).map (fun i => s * 2 ^ i) ∧
    st.intervals.getLastD 0 = s * 2 ^ N ∧
    (0 < s → st.intervals.Chain' (· < ·)) ∧
    (∀ st₁ i st₂, next_interval timeout st₁ = some (i, st₂) →
      st₁.total_time ≤ st₂.total_time) := by
  have hint := backoffIter_intervals timeout s N st h
  refine ⟨hint, ?_, ?_, ?_⟩
  · rw [hint, List.range_succ, List.map_append]
    exact List.getLastD_concat _ _ _
  · intro hs
    rw [hint, List.chain'_map, List.chain'_range_succ]
    intro m hm
    have h2 : (2 : Nat) ^ m < 2 ^ (m + 1) :=
      Nat.pow_lt_pow_right (by norm_num) (Nat.lt_succ_self m)
    exact mul_lt_mul_of_pos_left h2 hs
  · intro st₁ i st₂ hn
    obtain ⟨-, hst, -⟩ := next_interval_some hn
    subst hst
    exact Nat.le_add_right _ _

/-- Claim C4, instantiated: two backoff steps from seed 1 (timeout 10)
give the history `[1, 2, 4] = [1·2^0, 1·2^1, 1·2^2]`, strictly
increasing, and a concrete step leaves the counter no smaller. -/
theorem C4_backoff_doubling_witness :
    backoffIter 10 1 2 = some ⟨[1, 2, 4], 6⟩ ∧
    RetryState.intervals ⟨[1, 2, 4], 6⟩ = [1 * 2 ^ 0, 1 * 2 ^ 1, 1 * 2 ^ 2] ∧
    (RetryState.intervals ⟨[1, 2, 4], 6⟩).getLastD 0 = 1 * 2 ^ 2 ∧
    (RetryState.intervals ⟨[1, 2, 4], 6⟩).Chain' (· < ·) ∧
    RetryState.total_time (initialRetryState 1) ≤ RetryState.total_time ⟨[1, 2], 2⟩ :=
  ⟨rfl,
   (C4_backoff_doubling 10 1 2 ⟨[1, 2, 4], 6⟩ rfl).1,
   (C4_backoff_doubling 10 1 2 ⟨[1, 2, 4], 6⟩ rfl).2.1,
   (C4_backoff_doubling 10 1 2 ⟨[1, 2, 4], 6⟩ rfl).2.2.1 (by decide),
   (C4_backoff_doubling 10 1 2 ⟨[1, 2, 4], 6⟩ rfl).2.2.2
     (initialRetryState 1) 2 ⟨[1, 2], 2⟩ rfl⟩

/-- The bookkeeping invariant of a seeded run: the seed interval stays at
the head of the history and the counter equals the sum of the intervals
appended after the seed. -/
def stateWF (s : Nat) (st : RetryState) : Prop :=
  st.intervals.head? = some s ∧ st.total_time = st.intervals.tail.sum

/-- `next_interval` preserves the bookkeeping invariant. -/
theorem stateWF_next (timeout s : Nat) {st : RetryState} {i : Nat}
    {st' : RetryState} (hn : next_interval timeout st = some (i, st'))
    (h : stateWF s st) : stateWF s st' := by
  obtain ⟨-, hst, -⟩ := next_interval_some hn
  obtain ⟨hh, ht⟩ := h
  subst hst
  rcases st with ⟨l, t⟩
  rcases l with _ | ⟨a, l'⟩
  · exact absurd hh (by simp)
  · have ha : a = s := by simpa using hh
    subst ha
    constructor
    · rfl
    · have htail : ((a :: l') ++ [i]).tail = l' ++ [i] := rfl
      have ht' : t = l'.sum := ht
      show t + i = ((a :: l') ++ [i]).tail.sum
      rw [htail, List.sum_append, ht']
      simp

/-- Claim C9: at every work-unit invocation the counter equals the sum of
the intervals appended after the seed — the seed `starting_interval` is
never added to `total_time` and is never slept (the first slept interval
is already `starting_interval * 2`): the seeded state satisfies the
invariant, the invariant holds at every invocation state of a run, and
the first successful `next_interval` step from the seed returns
`starting_interval * 2`. -/
theorem C9_seed_not_counted (timeout s fuel : Nat)
    (transport : Nat → TransportResult) (h2s : s * 2 ≤ timeout) :
    stateWF s (initialRetryState s) ∧
    (∀ q ∈ (runLookup timeout transport fuel 0 (initialRetryState s)).states,
      q.total_time = q.intervals.tail.sum ∧ q.intervals.head? = some s) ∧
    next_interval timeout (initialRetryState s) =
      some (s * 2, ⟨[s, s * 2], s * 2⟩) := by
  refine ⟨⟨rfl, rfl⟩, ?_, ?_⟩
  · intro q hq
    have hw := runLookup_states_inv timeout transport (stateWF s)
      (fun st i st' hn hwf => stateWF_next timeout s hn hwf) fuel 0
      (initialRetryState s) ⟨rfl, rfl⟩ q hq
    exact ⟨hw.2, hw.1⟩
  · have hres : next_interval timeout ⟨[s], 0⟩ =
        if 0 + s * 2 > timeout then none
        else some (s * 2, ⟨[s] ++ [s * 2], 0 + s * 2⟩) := rfl
    show next_interval timeout ⟨[s], 0⟩ = some (s * 2, ⟨[s, s * 2], s * 2⟩)
    rw [hres, if_neg (by omega : ¬ 0 + s * 2 > timeout)]
    simp

/-- Claim C9, instantiated: seed 1, timeout 3 — at the second invocation
state the counter equals the post-seed interval sum, and the first
backoff step returns `1 * 2`. -/
theorem C9_seed_not_counted_witness :
    1 * 2 ≤ 3 ∧
    RetryState.total_time ⟨[1, 2], 2⟩ = (RetryState.intervals ⟨[1, 2], 2⟩).tail.sum ∧
    next_interval 3 (initialRetryState 1) = some (1 * 2, ⟨[1, 1 * 2], 1 * 2⟩) :=
  ⟨by decide,
   ((C9_seed_not_counted 3 1 10 transportDown (by decide)).2.1
     ⟨[1, 2], 2⟩ (by decide)).1,
   (C9_seed_not_counted 3 1 10 transportDown (by decide)).2.2⟩

/-- Claim C10: the time budget is inclusive — when `total_time` plus the
next doubled interval equals `timeout` exactly, `next_interval` still
fires, appending the interval and reaching a counter of exactly
`timeout`, and the failure path schedules a retry rather than the
no-value outcome. -/
theorem C10_inclusive_budget (timeout : Nat) (st : RetryState)
    (h : st.total_time + st.intervals.getLastD 0 * 2 = timeout) :
    next_interval timeout st =
      some (st.intervals.getLastD 0 * 2,
        ⟨st.intervals ++ [st.intervals.getLastD 0 * 2], timeout⟩) ∧
    continueStep timeout st =
      .retry (st.intervals.getLastD 0 * 2)
        ⟨st.intervals ++ [st.intervals.getLastD 0 * 2], timeout⟩ := by
  have hn : next_interval timeout st =
      some (st.intervals.getLastD 0 * 2,
        ⟨st.intervals ++ [st.intervals.getLastD 0 * 2], timeout⟩) := by
    unfold next_interval
    dsimp only
    rw [if_neg (by omega), h]
  refine ⟨hn, ?_⟩
  unfold continueStep
  rw [hn]

/-- Claim C10, instantiated: counter 0, last interval 1, timeout exactly
2 — the step fires and the counter reaches the timeout exactly. -/
theorem C10_inclusive_budget_witness :
    RetryState.total_time ⟨[1], 0⟩ +
      (RetryState.intervals ⟨[1], 0⟩).getLastD 0 * 2 = 2 ∧
    next_interval 2 ⟨[1], 0⟩ = some (2, ⟨[1, 2], 2⟩) :=
  ⟨rfl, (C10_inclusive_budget 2 ⟨[1], 0⟩ rfl).1⟩

/-- Claim C7: `heartbeat` returns the parsed `Heartbeat-Before` value if
and only if the transport call succeeded, the status is 204 No Content,
the header is present and it parses as a number; otherwise it fails with
a `HeartbeatError` — immediately (no retry, by construction a single
transport call) passing through the transport error message, with an
invalid-status message on any other status, with the missing-header
message when the header is absent, and with the invalid-header message
when it is present but does not parse. -/
theorem C7_heartbeat_contract (tr : TransportResult) :
    (∀ v, heartbeat tr = .ok v ↔
      ∃ response, tr = .ok response ∧ response.status_code = 204 ∧
        ∃ s, headerGet response.headers "Heartbeat-Before" = some s ∧
          pyFloat s = some v) ∧
    (∀ e, tr = .error e → heartbeat tr = .heartbeatError e) ∧
    (∀ response, tr = .ok response → response.status_code ≠ 204 →
      heartbeat tr = .heartbeatError
        ("Invalid status code: " ++ toString response.status_code)) ∧
    (∀ response, tr = .ok response → response.status_code = 204 →
      headerGet response.headers "Heartbeat-Before" = none →
      heartbeat tr = .heartbeatError "Missing Heartbeat-Before header") ∧
    (∀ response s, tr = .ok response → response.status_code = 204 →
      headerGet response.headers "Heartbeat-Before" = some s →
      pyFloat s = none →
      heartbeat tr = .heartbeatError "Invalid Heartbeat-Before header") := by
  cases tr with
  | error e =>
    refine ⟨?_, ?_, ?_, ?_, ?_⟩
    · intro v
      constructor
      · intro hv
        exact HeartbeatResult.noConfusion hv
      · rintro ⟨resp, hresp, -⟩
        exact TransportResult.noConfusion hresp
    · intro e' he
      injection he with h2
      subst h2
      exact rfl
    · intro resp hresp hs
      exact TransportResult.noConfusion hresp
    · intro resp hresp hst hh
      exact TransportResult.noConfusion hresp
    · intro resp s hresp hst hh hp
      exact TransportResult.noConfusion hresp
  | ok response =>
    by_cases hstatus : response.status_code = 204
    · have hred : heartbeat (.ok response) =
          match headerGet response.headers "Heartbeat-Before" with
          | none => .heartbeatError "Missing Heartbeat-Before header"
          | some s =>
            match pyFloat s with
            | none => .heartbeatError "Invalid Heartbeat-Before header"
            | some v => .ok v := by
        unfold heartbeat
        dsimp only
        rw [if_neg (not_not_intro hstatus)]
      refine ⟨?_, ?_, ?_, ?_, ?_⟩
      · intro v
        constructor
        · intro hv
          rw [hred] at hv
          rcases hh : headerGet response.headers "Heartbeat-Before" with _ | s
          · rw [hh] at hv
            exact HeartbeatResult.noConfusion hv
          · rw [hh] at hv
            dsimp only at hv
            rcases hp : pyFloat s with _ | w
            · rw [hp] at hv
              exact HeartbeatResult.noConfusion hv
            · rw [hp] at hv
              dsimp only at hv
              have hv' : w = v := by injection hv
              exact ⟨response, rfl, hstatus, s, hh, by rw [hp, hv']⟩
        · rintro ⟨resp, hresp, hst, s, hh, hp⟩
          injection hresp with h2
          subst h2
          rw [hred, hh]
          dsimp only
          rw [hp]
      · intro e he
        exact TransportResult.noConfusion he
      · intro resp hresp hs
        injection hresp with h2
        subst h2
        exact absurd hstatus hs
      · intro resp hresp hst hh
        injection hresp with h2
        subst h2
        rw [hred, hh]
      · intro resp s hresp hst hh hp
        injection hresp with h2
        subst h2
        rw [hred, hh]
        dsimp only
        rw [hp]
    · have hred : heartbeat (.ok response) =
          .heartbeatError ("Invalid status code: " ++ toString response.status_code) := by
        unfold heartbeat
        dsimp only
        rw [if_pos hstatus]
      refine ⟨?_, ?_, ?_, ?_, ?_⟩
      · intro v
        constructor
        · intro hv
          rw [hred] at hv
          exact HeartbeatResult.noConfusion hv
        · rintro ⟨resp, hresp, hst, -⟩
          injection hresp with h2
          subst h2
          exact absurd hst hstatus
      · intro e he
        exact TransportResult.noConfusion he
      · intro resp hresp hs
        injection hresp with h2
        subst h2
        exact hred
      · intro resp hresp hst hh
        injection hresp with h2
        subst h2
        exact absurd hst hstatus
      · intro resp s hresp hst hh hp
        injection hresp with h2
        subst h2
        exact absurd hst hstatus

/-- Claim C7, instantiated: header value `10.5` gives the decimal
`105 / 10^1`; a missing header gives the missing-header error; a
non-numeric header gives the invalid-header error; and a transport
failure is passed through at once. -/
theorem C7_heartbeat_contract_witness :
    heartbeat (.ok ⟨204, [("Heartbeat-Before", "10.5")], none⟩) = .ok ⟨105, 1⟩ ∧
    heartbeat (.ok ⟨204, [], none⟩) =
      .heartbeatError "Missing Heartbeat-Before header" ∧
    heartbeat (.ok ⟨204, [("Heartbeat-Before", "notanumber")], none⟩) =
      .heartbeatError "Invalid Heartbeat-Before header" ∧
    heartbeat (.error "connection reset") = .heartbeatError "connection reset" :=
  ⟨((C7_heartbeat_contract _).1 ⟨105, 1⟩).mpr
      ⟨⟨204, [("Heartbeat-Before", "10.5")], none⟩, rfl, rfl, "10.5", rfl, rfl⟩,
   (C7_heartbeat_contract _).2.2.2.1 ⟨204, [], none⟩ rfl rfl rfl,
   (C7_heartbeat_contract _).2.2.2.2 ⟨204, [("Heartbeat-Before", "notanumber")], none⟩
      "notanumber" rfl rfl rfl rfl,
   (C7_heartbeat_contract _).2.1 "connection reset" rfl⟩

end IronicAPIClient
